import Mathlib

/-!
# Verification of the orchestration and resilience core

Shallow embedding of the resilience/orchestration core of the
agentic-podcast-generator repository:

* `src/utils/retry.py` — `retry_with_backoff` and `CircuitBreaker`;
* `src/database/connection.py` — `create_session_record`,
  `update_session_status`;
* `src/agents/master_agent.py` — `MasterAgent.process_topic_with_research`;
* `src/agents/base_agent.py` — `BaseAgent.validate_input`,
  `execute_with_logging`;
* `src/agents/sub_agents/{post_generator,voice_dialog,keyword_generator}.py`
  — the three workers launched by the fan-out step.

Python floats are modelled as rationals (`ℚ`), Python ints as `ℤ`/`ℕ`,
wall-clock instants (`datetime.utcnow()`) as explicit `ℚ` parameters, and
a Python call that may raise as an `Except` value.  External effects (the
LLM calls performed by the workers, exceptions raised by session creation
or agent initialisation) are supplied as oracle parameters, so that the
control flow of the embedded code can be replayed deterministically.
-/

/-- A dynamically typed Python value, as far as the orchestrator's
dictionaries need: strings, numbers, booleans, lists, dicts, `None`. -/
inductive PyVal where
  | str (s : String)
  | num (q : ℚ)
  | bool (b : Bool)
  | list (l : List PyVal)
  | dict (d : List (String × PyVal))
  | none
deriving Inhabited

/-- `d.get(k, default)` on a Python dict modelled as an association list. -/
def dictGetD (d : List (String × PyVal)) (k : String) (default : PyVal) : PyVal :=
  match d.find? (fun p => p.1 == k) with
  | Option.some p => p.2
  | Option.none => default

/-- `k in d` on a Python dict modelled as an association list. -/
def dictHasKey (d : List (String × PyVal)) (k : String) : Bool :=
  (d.find? (fun p => p.1 == k)).isSome

/-- A single-quote character, used to reproduce Python `repr` of strings. -/
def pyQuoteChar : Char := Char.ofNat 39

/-- Python `repr` of a string (single-quoted), as it appears inside the
f-string of `BaseAgent.validate_input`. -/
def pyReprStr (s : String) : String :=
  String.singleton pyQuoteChar ++ s ++ String.singleton pyQuoteChar

/-- Python `repr` of a list of strings, e.g. `['keywords']`. -/
def pyReprStrList (ks : List String) : String :=
  "[" ++ String.intercalate ", " (ks.map pyReprStr) ++ "]"

/-! ## `retry_with_backoff` (src/utils/retry.py, lines 11–81)

The wrapped operation is modelled as `op : ℕ → Except ε α`, giving the
outcome of each attempt (attempt indices are 0-based, as in the Python
`for attempt in range(max_retries + 1)` loop).  Membership of a raised
error in the decorator's `exceptions` tuple is modelled by the predicate
`retryable : ε → Bool`.  The result records the number of times the
operation was invoked together with the final outcome (`.ok` for a
returned value, `.error` for the exception that propagates out of the
wrapper). -/

/-- The retry loop of `retry_with_backoff`, starting at attempt index
`attempt` with `remaining` retries left.  Mirrors
`for attempt in range(max_retries + 1)`: a success returns immediately;
an error in the allow-list with retries remaining recurses after the
backoff sleep; an error outside the allow-list is not caught by the
`except exceptions` clause and propagates at once; the last attempt's
error is re-raised after the loop (`raise last_exception`). -/
def retryFrom {α ε : Type} (op : ℕ → Except ε α) (retryable : ε → Bool) :
    ℕ → ℕ → ℕ × Except ε α
  | attempt, 0 =>
    match op attempt with
    | Except.ok a => (1, Except.ok a)
    | Except.error e => (1, Except.error e)
  | attempt, remaining + 1 =>
    match op attempt with
    | Except.ok a => (1, Except.ok a)
    | Except.error e =>
      if retryable e then
        let rest := retryFrom op retryable (attempt + 1) remaining
        (rest.1 + 1, rest.2)
      else
        (1, Except.error e)

/-- `retry_with_backoff(max_retries=R)` applied to `op`: run the retry loop
from attempt 0 with `R` retries remaining.  Returns (number of invocations
of `op`, final outcome). -/
def retryWithBackoff {α ε : Type} (op : ℕ → Except ε α) (retryable : ε → Bool)
    (maxRetries : ℕ) : ℕ × Except ε α :=
  retryFrom op retryable 0 maxRetries

/-- The un-jittered backoff delay of `retry_with_backoff`:
`delay = min(base_delay * (exponential_base ** attempt), max_delay)`
(src/utils/retry.py, lines 61–64). -/
def backoffDelay (base_delay max_delay exponential_base : ℚ) (attempt : ℕ) : ℚ :=
  min (base_delay * exponential_base ^ attempt) max_delay

/-- The jittered delay: `delay = delay * (0.5 + random.random() * 0.5)`
(src/utils/retry.py, lines 67–69), with `rand` the value returned by
`random.random()`. -/
def backoffDelayJittered (base_delay max_delay exponential_base : ℚ)
    (attempt : ℕ) (rand : ℚ) : ℚ :=
  backoffDelay base_delay max_delay exponential_base attempt * (1/2 + rand * (1/2))

/-! ## `CircuitBreaker` (src/utils/retry.py, lines 147–201) -/

/-- The three circuit-breaker states (`self.state` strings in the source). -/
inductive CBState where
  | CLOSED
  | OPEN
  | HALF_OPEN
deriving DecidableEq, Inhabited

/-- The mutable state of a `CircuitBreaker` instance.  `failure_threshold`
is a Python int (`ℤ`), `recovery_timeout` a float (`ℚ`), timestamps are
instants in seconds (`ℚ`). -/
structure CircuitBreaker where
  failure_threshold : ℤ
  recovery_timeout : ℚ
  failure_count : ℕ
  last_failure_time : Option ℚ
  state : CBState
deriving DecidableEq, Inhabited

/-- The body of `CircuitBreaker.__init__`: plain field assignments,
producing a CLOSED breaker with zero failures. -/
def CircuitBreaker.init0 (failure_threshold : ℤ) (recovery_timeout : ℚ) :
    CircuitBreaker :=
  { failure_threshold := failure_threshold
    recovery_timeout := recovery_timeout
    failure_count := 0
    last_failure_time := Option.none
    state := CBState.CLOSED }

/-- `CircuitBreaker.__init__` viewed as a fallible Python call.  The
constructor body contains no `raise` and no validation of its arguments,
so construction always succeeds. -/
def CircuitBreaker.init (failure_threshold : ℤ) (recovery_timeout : ℚ) :
    Except String CircuitBreaker :=
  Except.ok (CircuitBreaker.init0 failure_threshold recovery_timeout)

/-- `CircuitBreaker._can_attempt`, with `now` standing for
`datetime.utcnow()`.  Returns the boolean result together with the
(possibly updated) breaker, since the OPEN branch may mutate `self.state`
to HALF_OPEN. -/
def canAttempt (cb : CircuitBreaker) (now : ℚ) : Bool × CircuitBreaker :=
  match cb.state with
  | CBState.CLOSED => (true, cb)
  | CBState.OPEN =>
    match cb.last_failure_time with
    | Option.some lft =>
      if cb.recovery_timeout < now - lft then
        (true, { cb with state := CBState.HALF_OPEN })
      else
        (false, cb)
    | Option.none => (false, cb)
  | CBState.HALF_OPEN => (true, cb)

/-- `CircuitBreaker._record_success`: reset `failure_count` and close. -/
def recordSuccess (cb : CircuitBreaker) : CircuitBreaker :=
  { cb with failure_count := 0, state := CBState.CLOSED }

/-- `CircuitBreaker._record_failure`: increment `failure_count`, stamp
`last_failure_time`, and open the breaker once
`failure_count >= failure_threshold`. -/
def recordFailure (cb : CircuitBreaker) (now : ℚ) : CircuitBreaker :=
  let cb1 := { cb with
    failure_count := cb.failure_count + 1
    last_failure_time := Option.some now }
  if cb.failure_threshold ≤ (cb.failure_count + 1 : ℤ) then
    { cb1 with state := CBState.OPEN }
  else
    cb1

/-- Outcome of `CircuitBreaker.call`: the operation's value, the
operation's own error (re-raised unchanged), or the synthetic
`Exception("Circuit breaker is OPEN")`. -/
inductive CBCallResult (ε α : Type) where
  | ok (a : α)
  | err (e : ε)
  | circuitOpen
deriving DecidableEq

/-- `CircuitBreaker.call`: check eligibility, then invoke the operation
(whose outcome is the value `op`), recording success or an
`expected_exception`-matching failure.  Returns the call result, the
updated breaker, and whether the wrapped operation was invoked at all. -/
def cbCall {ε α : Type} (cb : CircuitBreaker) (now : ℚ) (op : Except ε α)
    (isExpected : ε → Bool) : CBCallResult ε α × CircuitBreaker × Bool :=
  let checked := canAttempt cb now
  if checked.1 then
    match op with
    | Except.ok a => (CBCallResult.ok a, recordSuccess checked.2, true)
    | Except.error e =>
      if isExpected e then
        (CBCallResult.err e, recordFailure checked.2 now, true)
      else
        (CBCallResult.err e, checked.2, true)
  else
    (CBCallResult.circuitOpen, checked.2, false)

/-- One externally visible event in the life of a breaker: a recorded
success, a recorded failure at some instant, or an eligibility check at
some instant (which may move OPEN to HALF_OPEN). -/
inductive CBEvent where
  | success
  | failure (now : ℚ)
  | attemptCheck (now : ℚ)

/-- Apply one event to a breaker. -/
def cbStep (cb : CircuitBreaker) : CBEvent → CircuitBreaker
  | CBEvent.success => recordSuccess cb
  | CBEvent.failure now => recordFailure cb now
  | CBEvent.attemptCheck now => (canAttempt cb now).2

/-- The breaker reached from a fresh `CircuitBreaker(threshold, timeout)`
by a sequence of events. -/
def cbReach (failure_threshold : ℤ) (recovery_timeout : ℚ)
    (evs : List CBEvent) : CircuitBreaker :=
  evs.foldl cbStep (CircuitBreaker.init0 failure_threshold recovery_timeout)

/-- Folding `recordFailure` over a list of failure instants: `t` consecutive
recorded failures with no intervening success. -/
def failSeq (cb : CircuitBreaker) (times : List ℚ) : CircuitBreaker :=
  times.foldl recordFailure cb

/-! ## Session record store (src/database/connection.py, lines 69–93)

Modelled from the spec: `src/database/models.py` is imported by
`connection.py` but is not present under `src/`; the `Session` row's
defaults follow the spec's Session data model — a freshly created session
has status `pending`, and `completed_at` / `error_message` are unset
(nullable, null at creation). -/

/-- One persisted session row.  The field assignments performed on it are
those of `create_session_record` and `update_session_status`. -/
structure SessionRec where
  topic : String
  analysis : Option String
  status : String
  completed_at : Option ℚ
  error_message : Option String
deriving DecidableEq, Inhabited

/-- The session store: the next auto-increment id and the rows by id. -/
structure SessionDB where
  nextId : ℕ
  sessions : ℕ → Option SessionRec

/-- `create_session_record(topic, analysis)`: insert a new `pending` row
and return the store together with the fresh id. -/
def createSessionRecord (db : SessionDB) (topic : String)
    (analysis : Option String) : SessionDB × ℕ :=
  ({ nextId := db.nextId + 1
     sessions := fun i =>
       if i = db.nextId then
         Option.some
           { topic := topic
             analysis := analysis
             status := "pending"
             completed_at := Option.none
             error_message := Option.none }
       else db.sessions i },
   db.nextId)

/-- Python truthiness of the `error_message: Optional[str]` argument:
`None` and the empty string are falsy. -/
def strOptTruthy : Option String → Bool
  | Option.none => false
  | Option.some s => !(s == "")

/-- The field updates `update_session_status` applies to a found row:
always overwrite `status`; stamp `completed_at = utcnow()` only when the
new status is `'completed'`; overwrite `error_message` only when the
argument is truthy. -/
def applySessionUpdate (rec : SessionRec) (status : String)
    (error_message : Option String) (now : ℚ) : SessionRec :=
  { rec with
    status := status
    completed_at := if status = "completed" then Option.some now else rec.completed_at
    error_message := if strOptTruthy error_message then error_message else rec.error_message }

/-- `update_session_status(session_id, status, error_message)`, with `now`
standing for `datetime.utcnow()`.  A missing row (`if db_session:` false)
makes the call a silent no-op. -/
def updateSessionStatus (db : SessionDB) (session_id : ℕ) (status : String)
    (error_message : Option String) (now : ℚ) : SessionDB :=
  match db.sessions session_id with
  | Option.none => db
  | Option.some rec =>
    { db with sessions := fun i =>
        if i = session_id then
          Option.some (applySessionUpdate rec status error_message now)
        else db.sessions i }

/-! ## Workers (src/agents/base_agent.py, sub_agents/*)

Each worker's `execute` starts with `self.validate_input` and then performs
its LLM-driven body; the body's outcome (a returned dict or a raised
exception) is supplied as an oracle.  `execute_with_logging` wraps
`execute` and re-raises its exception unchanged, so a worker's outcome as
seen by `asyncio.gather` is the outcome of `execute` itself (the audit-log
writes are best-effort persistence, not modelled). -/

/-- `BaseAgent.validate_input(input_data, required_keys)`: collect the
required keys missing from the input dict and raise
`ValueError(f"Missing required input keys: {missing_keys}")` when any are
missing. -/
def validateInput (input_data : List (String × PyVal)) (required_keys : List String) :
    Except String Unit :=
  match required_keys.filter (fun k => !(dictHasKey input_data k)) with
  | [] => Except.ok ()
  | missing => Except.error ("Missing required input keys: " ++ pyReprStrList missing)

/-- Required input keys of `PostGenerator.execute`
(src/agents/sub_agents/post_generator.py, line 22). -/
def postRequiredKeys : List String := ["topic", "research", "keywords"]

/-- Required input keys of `VoiceDialogGenerator.execute`
(src/agents/sub_agents/voice_dialog.py, line 23). -/
def voiceRequiredKeys : List String := ["topic", "research_response"]

/-- Required input keys of `KeywordGenerator.execute`
(src/agents/sub_agents/keyword_generator.py, line 23). -/
def keywordRequiredKeys : List String := ["topic"]

/-- A worker's `execute`: input validation followed by the body, whose
outcome is the oracle `body`. -/
def workerExecute (input_data : List (String × PyVal)) (required_keys : List String)
    (body : Except String (List (String × PyVal))) :
    Except String (List (String × PyVal)) :=
  match validateInput input_data required_keys with
  | Except.error e => Except.error e
  | Except.ok _ => body

/-! ## `MasterAgent.process_topic_with_research`
(src/agents/master_agent.py, lines 32–131) -/

/-- The `research_results` dict built at lines 57–72 of
`master_agent.py` from the topic and the Perplexity response. -/
def buildResearchResults (topic research_response : String) : List (String × PyVal) :=
  [("topic", PyVal.str topic),
   ("research_plan", PyVal.dict
     [("search_queries", PyVal.list [PyVal.str topic]),
      ("source_types", PyVal.list [PyVal.str "perplexity"])]),
   ("results", PyVal.list [PyVal.dict
     [("title", PyVal.str ("Perplexity Research: " ++ topic)),
      ("url", PyVal.str ("https://perplexity.ai/search?q=" ++ topic.replace " " "+")),
      ("snippet", PyVal.str (research_response.take 500)),
      ("content", PyVal.str research_response),
      ("source", PyVal.str "perplexity"),
      ("relevance_score", PyVal.num 1),
      ("credibility_score", PyVal.num (9/10))]]),
   ("summary", PyVal.str research_response),
   ("total_sources", PyVal.num 1),
   ("credibility_score", PyVal.num (9/10))]

/-- `post_input` (master_agent.py, lines 78–82): keys `topic`, `research`,
`research_response` — and no `keywords` key. -/
def postInput (topic research_response : String) : List (String × PyVal) :=
  [("topic", PyVal.str topic),
   ("research", PyVal.dict (buildResearchResults topic research_response)),
   ("research_response", PyVal.str research_response)]

/-- `voice_input` (master_agent.py, lines 84–87). -/
def voiceInput (topic research_response : String) : List (String × PyVal) :=
  [("topic", PyVal.str topic),
   ("research_response", PyVal.str research_response)]

/-- `keyword_input` (master_agent.py, lines 89–92). -/
def keywordInput (topic research_response : String) : List (String × PyVal) :=
  [("topic", PyVal.str topic),
   ("research_response", PyVal.str research_response)]

/-- Oracles for the external effects of one orchestration run: an
exception raised by `create_session_record`, an exception raised by
`initialize_all_agents`, and the bodies of the three workers (the outcome
each `execute` produces after its input validation passes). -/
structure MasterEnv where
  createErr : Option String
  initErr : Option String
  postBody : Except String (List (String × PyVal))
  voiceBody : Except String (List (String × PyVal))
  keywordBody : Except String (List (String × PyVal))

/-- The in-process fan-in aggregate: `results[name]` is `None` for a task
whose awaited outcome was an exception, else the task's returned dict
(the loop at master_agent.py, lines 104–110). -/
def exceptionToNone (outcome : Except String (List (String × PyVal))) :
    Option (List (String × PyVal)) :=
  match outcome with
  | Except.ok d => Option.some d
  | Except.error _ => Option.none

/-- The `results.get(name, {}).get(key, default) if results.get(name) else default`
idiom used to assemble the final dict (master_agent.py, lines 120–123). -/
def resultField (entry : Option (List (String × PyVal))) (key : String)
    (default : PyVal) : PyVal :=
  match entry with
  | Option.some d => dictGetD d key default
  | Option.none => default

/-- The final aggregate dict returned at master_agent.py, lines 116–125. -/
def finalDict (session_id : ℕ) (topic research_response : String)
    (post voice keyword : Option (List (String × PyVal))) :
    List (String × PyVal) :=
  [("session_id", PyVal.num (session_id : ℚ)),
   ("topic", PyVal.str topic),
   ("research_response", PyVal.str research_response),
   ("linkedin_post", resultField post "content" (PyVal.str "")),
   ("voice_dialog", resultField voice "dialog" (PyVal.str "")),
   ("keywords", resultField keyword "keywords" (PyVal.list [])),
   ("hashtags", resultField keyword "hashtags" (PyVal.list [])),
   ("research_summary", PyVal.str (research_response.take 500))]

/-- The observable outcome of one `process_topic_with_research` run: the
final session store, the names of the sub-agent tasks handed to
`asyncio.gather`, and the value returned or the exception re-raised. -/
structure RunOutcome where
  db : SessionDB
  launched : List String
  result : Except String (List (String × PyVal))

/-- The body of the `try` block after `self.session_id` has been set to
`sid` (master_agent.py, lines 53–125), together with the `except` handler
(lines 127–131), whose guard `if self.session_id:` skips the failure
update when `sid` is falsy (0).  `asyncio.gather(..., return_exceptions=True)`
is the identity on the three already-captured outcomes and raises
nothing. -/
def processAfterSession (env : MasterEnv) (db : SessionDB) (sid : ℕ)
    (topic research_response : String) (now : ℚ) : RunOutcome :=
  match env.initErr with
  | Option.some e =>
    { db := if sid ≠ 0 then updateSessionStatus db sid "failed" (Option.some e) now else db
      launched := []
      result := Except.error e }
  | Option.none =>
    let postOutcome := workerExecute (postInput topic research_response)
      postRequiredKeys env.postBody
    let voiceOutcome := workerExecute (voiceInput topic research_response)
      voiceRequiredKeys env.voiceBody
    let keywordOutcome := workerExecute (keywordInput topic research_response)
      keywordRequiredKeys env.keywordBody
    let db2 := updateSessionStatus db sid "completed" Option.none now
    { db := db2
      launched := ["post_generator", "voice_dialog", "keyword_generator"]
      result := Except.ok (finalDict sid topic research_response
        (exceptionToNone postOutcome) (exceptionToNone voiceOutcome)
        (exceptionToNone keywordOutcome)) }

/-- `MasterAgent.process_topic_with_research(topic, research_response,
session_id)`.  With `session_id=None` a new session row is created (or
`create_session_record` raises, in which case the handler's
`if self.session_id:` guard is falsy — `self.session_id` is still `None`
from `BaseAgent.__init__` — and the exception surfaces with no status
update); with a concrete id the stored session is resumed without any
status check. -/
def processTopicWithResearch (env : MasterEnv) (db : SessionDB)
    (topic research_response : String) (session_id : Option ℕ) (now : ℚ) :
    RunOutcome :=
  match session_id with
  | Option.none =>
    match env.createErr with
    | Option.some e => { db := db, launched := [], result := Except.error e }
    | Option.none =>
      let created := createSessionRecord db topic Option.none
      processAfterSession env created.1 created.2 topic research_response now
  | Option.some sid =>
    processAfterSession env db sid topic research_response now

/-- Invariant of every reachable breaker: away from CLOSED, the failure
count has reached the threshold (OPEN is only ever set by
`_record_failure` when the count reaches the threshold, the count is only
reset together with a transition to CLOSED, and HALF_OPEN is only entered
from OPEN without touching the count). -/
def cbInv (cb : CircuitBreaker) : Prop :=
  cb.state ≠ CBState.CLOSED → cb.failure_threshold ≤ (cb.failure_count : ℤ)

/-- Sample breaker used as a concrete HALF_OPEN state: threshold 1,
timeout 60, one failure recorded at time 0, eligibility checked at
time 61 (it equals `cbReach 1 60 [failure 0, attemptCheck 61]`). -/
def cbHalfOpenSample : CircuitBreaker :=
  { failure_threshold := 1
    recovery_timeout := 60
    failure_count := 1
    last_failure_time := Option.some 0
    state := CBState.HALF_OPEN }

/-- Sample store with one pending session at id 1 (next id 2). -/
def pendingSampleDB : SessionDB :=
  { nextId := 2
    sessions := fun i =>
      if i = 1 then
        Option.some
          { topic := "t"
            analysis := Option.none
            status := "pending"
            completed_at := Option.none
            error_message := Option.none }
      else Option.none }

/-- The pending row stored in `pendingSampleDB`. -/
def pendingSampleRec : SessionRec :=
  { topic := "t"
    analysis := Option.none
    status := "pending"
    completed_at := Option.none
    error_message := Option.none }

/-- A session row already in the terminal `completed` state, finished at
time 100. -/
def completedSampleRec : SessionRec :=
  { topic := "t"
    analysis := Option.none
    status := "completed"
    completed_at := Option.some 100
    error_message := Option.none }

/-- Sample store holding the completed session at id 1. -/
def completedSampleDB : SessionDB :=
  { nextId := 2
    sessions := fun i =>
      if i = 1 then Option.some completedSampleRec else Option.none }

/-- Sample run environment in which `initialize_all_agents` raises. -/
def failEnvSample : MasterEnv :=
  { createErr := Option.none
    initErr := Option.some "boom"
    postBody := Except.ok []
    voiceBody := Except.ok []
    keywordBody := Except.ok [] }

/-- Sample run environment with no orchestration-level exception: the
voice worker's body raises, the keyword worker's body returns a dict. -/
def mixedEnvSample : MasterEnv :=
  { createErr := Option.none
    initErr := Option.none
    postBody := Except.ok [("content", PyVal.str "post text")]
    voiceBody := Except.error "voice exploded"
    keywordBody := Except.ok
      [("keywords", PyVal.list [PyVal.str "ai"]),
       ("hashtags", PyVal.list [PyVal.str "#ai"])] }

/-! ## Supporting lemmas -/

lemma recordFailure_fields (cb : CircuitBreaker) (now : ℚ) :
    (recordFailure cb now).failure_threshold = cb.failure_threshold
    ∧ (recordFailure cb now).recovery_timeout = cb.recovery_timeout
    ∧ (recordFailure cb now).failure_count = cb.failure_count + 1
    ∧ (recordFailure cb now).last_failure_time = Option.some now := by
  simp only [recordFailure]
  split <;> simp

lemma recordFailure_state_of_le (cb : CircuitBreaker) (now : ℚ)
    (h : cb.failure_threshold ≤ (cb.failure_count + 1 : ℤ)) :
    (recordFailure cb now).state = CBState.OPEN := by
  simp [recordFailure, h]

lemma failSeq_fields : ∀ (ts : List ℚ) (cb : CircuitBreaker),
    (failSeq cb ts).failure_threshold = cb.failure_threshold
    ∧ (failSeq cb ts).recovery_timeout = cb.recovery_timeout
    ∧ (failSeq cb ts).failure_count = cb.failure_count + ts.length := by
  intro ts
  induction ts with
  | nil => intro cb; simp [failSeq]
  | cons x xs ih =>
    intro cb
    have hx := recordFailure_fields cb x
    have h := ih (recordFailure cb x)
    simp only [failSeq, List.foldl_cons] at h ⊢
    refine ⟨?_, ?_, ?_⟩
    · rw [h.1, hx.1]
    · rw [h.2.1, hx.2.1]
    · rw [h.2.2, hx.2.2.1]
      simp [Nat.add_assoc, Nat.add_comm 1 xs.length]

lemma failSeq_snoc (cb : CircuitBreaker) (ts : List ℚ) (x : ℚ) :
    failSeq cb (ts ++ [x]) = recordFailure (failSeq cb ts) x := by
  simp [failSeq, List.foldl_append]

lemma retryFrom_always_error {α ε : Type} (op : ℕ → Except ε α)
    (retryable : ε → Bool) (errAt : ℕ → ε)
    (hf : ∀ k, op k = Except.error (errAt k))
    (hr : ∀ k, retryable (errAt k) = true) :
    ∀ (remaining attempt : ℕ),
      retryFrom op retryable attempt remaining
        = (remaining + 1, Except.error (errAt (attempt + remaining))) := by
  intro remaining
  induction remaining with
  | zero =>
    intro attempt
    simp [retryFrom, hf attempt]
  | succ r ih =>
    intro attempt
    have harith : attempt + 1 + r = attempt + (r + 1) := by omega
    simp [retryFrom, hf attempt, hr attempt, ih (attempt + 1), harith]

lemma cbStep_inv (cb : CircuitBreaker) (ev : CBEvent) (h : cbInv cb) :
    cbInv (cbStep cb ev) := by
  cases ev with
  | success =>
    intro hs
    simp [cbStep, recordSuccess] at hs
  | failure now =>
    intro hs
    have hfields := recordFailure_fields cb now
    rw [show cbStep cb (CBEvent.failure now) = recordFailure cb now from rfl] at hs ⊢
    rw [hfields.1, hfields.2.2.1]
    by_cases hc : cb.failure_threshold ≤ (cb.failure_count + 1 : ℤ)
    · push_cast
      push_cast at hc
      omega
    · have hstate : (recordFailure cb now).state = cb.state := by
        simp [recordFailure, hc]
      rw [hstate] at hs
      have := h hs
      push_cast
      push_cast at this
      omega
  | attemptCheck now =>
    intro hs
    rw [show cbStep cb (CBEvent.attemptCheck now) = (canAttempt cb now).2 from rfl] at hs ⊢
    cases hcs : cb.state with
    | CLOSED =>
      have hid : (canAttempt cb now).2 = cb := by simp [canAttempt, hcs]
      rw [hid] at hs
      exact absurd hcs hs
    | OPEN =>
      have hth : (canAttempt cb now).2.failure_threshold = cb.failure_threshold
          ∧ (canAttempt cb now).2.failure_count = cb.failure_count := by
        simp only [canAttempt, hcs]
        cases hl : cb.last_failure_time with
        | none => simp
        | some lft =>
          by_cases hr : cb.recovery_timeout < now - lft
          · simp [hr]
          · simp [hr]
      rw [hth.1, hth.2]
      exact h (by rw [hcs]; simp)
    | HALF_OPEN =>
      have hid : (canAttempt cb now).2 = cb := by simp [canAttempt, hcs]
      rw [hid]
      exact h (by rw [hcs]; simp)

lemma cbReach_inv (t : ℤ) (r : ℚ) (evs : List CBEvent) :
    cbInv (cbReach t r evs) := by
  have hstep : ∀ (es : List CBEvent) (cb : CircuitBreaker),
      cbInv cb → cbInv (List.foldl cbStep cb es) := by
    intro es
    induction es with
    | nil => intro cb h; exact h
    | cons e es ih =>
      intro cb h
      exact ih _ (cbStep_inv cb e h)
  exact hstep evs _ (fun hs => absurd rfl hs)

/-! ## Claim theorems -/

/-- C2: for every retry bound `R ≥ 0`, an operation that always raises an
error in the retryable allow-list is attempted exactly `R + 1` times and
the error finally raised equals the error from the last attempt; an
operation whose raised error kind is not in the allow-list is attempted
exactly once regardless of `R`, and its error propagates unchanged. -/
theorem retry_attempt_counts {α ε : Type} (R : ℕ)
    (op1 : ℕ → Except ε α) (retryable1 : ε → Bool) (errAt : ℕ → ε)
    (h1 : ∀ k, op1 k = Except.error (errAt k))
    (h2 : ∀ k, retryable1 (errAt k) = true)
    (op2 : ℕ → Except ε α) (retryable2 : ε → Bool) (e : ε)
    (h3 : op2 0 = Except.error e) (h4 : retryable2 e = false) :
    retryWithBackoff op1 retryable1 R = (R + 1, Except.error (errAt R))
    ∧ retryWithBackoff op2 retryable2 R = (1, Except.error e) := by
  constructor
  · have h := retryFrom_always_error op1 retryable1 errAt h1 h2 R 0
    simpa [retryWithBackoff] using h
  · cases R with
    | zero => simp [retryWithBackoff, retryFrom, h3]
    | succ r => simp [retryWithBackoff, retryFrom, h3, h4]

/-- Witness for C2: concrete always-failing retryable operation with
`R = 2` is attempted 3 times; a non-retryable error is attempted once. -/
theorem retry_attempt_counts_witness :
    retryWithBackoff (fun k => (Except.error k : Except ℕ ℕ)) (fun _ => true) 2
      = (3, Except.error 2)
    ∧ retryWithBackoff (fun _ => (Except.error 7 : Except ℕ ℕ)) (fun _ => false) 2
      = (1, Except.error 7) :=
  retry_attempt_counts 2 (fun k => Except.error k) (fun _ => true) (fun k => k)
    (fun _ => rfl) (fun _ => rfl) (fun _ => Except.error 7) (fun _ => false) 7 rfl rfl

/-- C3: for every attempt index `k`, base delay `b`, exponential base `e`
and max delay `m`, the un-jittered backoff delay equals `min(b * e^k, m)`;
with jitter enabled (`random.random()` returning `r ∈ [0, 1)`) the delay
is the un-jittered delay times a factor in `[0.5, 1.0]`; in particular
`base_delay=1.0, exponential_base=2.0, max_delay=60.0` at attempt index 3
yields an un-jittered delay of `8.0` seconds. -/
theorem backoff_delay_formula (b m e : ℚ) (k : ℕ) (r : ℚ)
    (h0 : 0 ≤ r) (h1 : r < 1) :
    backoffDelay b m e k = min (b * e ^ k) m
    ∧ (∃ f, 1/2 ≤ f ∧ f ≤ 1
        ∧ backoffDelayJittered b m e k r = backoffDelay b m e k * f)
    ∧ backoffDelay 1 60 2 3 = 8 := by
  refine ⟨rfl, ⟨1/2 + r * (1/2), by linarith, by linarith, rfl⟩, ?_⟩
  norm_num [backoffDelay]

/-- Witness for C3 at `r = 1/2`. -/
theorem backoff_delay_formula_witness :
    (0:ℚ) ≤ 1/2 ∧ (1/2:ℚ) < 1
    ∧ (backoffDelay 1 60 2 3 = min ((1:ℚ) * 2 ^ 3) 60
       ∧ (∃ f, (1:ℚ)/2 ≤ f ∧ f ≤ 1
           ∧ backoffDelayJittered 1 60 2 3 (1/2) = backoffDelay 1 60 2 3 * f)
       ∧ backoffDelay 1 60 2 3 = 8) :=
  ⟨by norm_num, by norm_num,
   backoff_delay_formula 1 60 2 3 (1/2) (by norm_num) (by norm_num)⟩

/-- C9 counterexample: constructing a `CircuitBreaker` with
`failure_threshold = 0` is *not* rejected — `__init__` performs no
validation and construction succeeds, refuting the claim that non-positive
thresholds are rejected at construction time. -/
theorem breaker_init_zero_threshold_not_rejected :
    ¬ ∃ e, CircuitBreaker.init 0 60 = Except.error e := by
  rintro ⟨e, h⟩
  simp [CircuitBreaker.init] at h

/-- C9 amended: construction never rejects any threshold — for every
`failure_threshold` (including 0 and negative values) the constructor
succeeds and returns a CLOSED breaker with zero recorded failures. -/
theorem breaker_init_never_rejects (t : ℤ) (r : ℚ) :
    CircuitBreaker.init t r = Except.ok
      { failure_threshold := t, recovery_timeout := r, failure_count := 0,
        last_failure_time := Option.none, state := CBState.CLOSED } := rfl

/-- C4 counterexample: the claim quantifies over *every* breaker, but a
breaker constructed with `failure_threshold = 0` (construction accepts it,
see C9) is still CLOSED after its 0 consecutive recorded failures, not
OPEN. -/
theorem breaker_threshold_zero_not_open :
    (failSeq (CircuitBreaker.init0 0 60) []).state = CBState.CLOSED
    ∧ CBState.CLOSED ≠ CBState.OPEN := by
  exact ⟨rfl, by decide⟩

/-- C4 amended: for every breaker with `failure_threshold ≥ 1`, after
exactly `failure_threshold` consecutive recorded failures (no intervening
success) the state is OPEN, and a call made while OPEN before the recovery
timeout has elapsed yields the synthetic "Circuit breaker is OPEN" error
without invoking the wrapped operation and without changing the breaker. -/
theorem breaker_opens_at_threshold (t : ℤ) (r : ℚ) (ts : List ℚ)
    (now lft : ℚ) {α : Type} (op : Except String α) (isE : String → Bool)
    (ht : 1 ≤ t) (hlen : (ts.length : ℤ) = t)
    (hlast : (failSeq (CircuitBreaker.init0 t r) ts).last_failure_time
      = Option.some lft)
    (hnow : now - lft ≤ r) :
    (failSeq (CircuitBreaker.init0 t r) ts).state = CBState.OPEN
    ∧ cbCall (failSeq (CircuitBreaker.init0 t r) ts) now op isE
        = (CBCallResult.circuitOpen, failSeq (CircuitBreaker.init0 t r) ts, false) := by
  have hfields := failSeq_fields ts (CircuitBreaker.init0 t r)
  have hne : ts ≠ [] := by
    intro hnil
    rw [hnil] at hlen
    simp at hlen
    omega
  have hopen : (failSeq (CircuitBreaker.init0 t r) ts).state = CBState.OPEN := by
    obtain ⟨ys, y, hys⟩ := (List.eq_nil_or_concat ts).resolve_left hne
    rw [hys, List.concat_eq_append, failSeq_snoc]
    apply recordFailure_state_of_le
    have hy := failSeq_fields ys (CircuitBreaker.init0 t r)
    rw [hy.1, hy.2.2]
    have hylen : (ys.length : ℤ) + 1 = t := by
      rw [← hlen, hys]
      simp [List.concat_eq_append]
    simp only [CircuitBreaker.init0]
    push_cast
    omega
  have hcan : canAttempt (failSeq (CircuitBreaker.init0 t r) ts) now
      = (false, failSeq (CircuitBreaker.init0 t r) ts) := by
    have hrt : (failSeq (CircuitBreaker.init0 t r) ts).recovery_timeout = r := by
      rw [hfields.2.1]
      rfl
    simp only [canAttempt, hopen, hlast, hrt]
    rw [if_neg (by linarith)]
  exact ⟨hopen, by simp [cbCall, hcan]⟩

/-- Witness for C4 amended: threshold 2, failures at times 0 and 1, a call
at time 30 (elapsed 29 ≤ 60) is rejected without invoking the operation. -/
theorem breaker_opens_at_threshold_witness :
    (1:ℤ) ≤ 2 ∧ (([0, 1] : List ℚ).length : ℤ) = 2
    ∧ (failSeq (CircuitBreaker.init0 2 60) [0, 1]).last_failure_time
        = Option.some 1
    ∧ (30:ℚ) - 1 ≤ 60
    ∧ ((failSeq (CircuitBreaker.init0 2 60) [0, 1]).state = CBState.OPEN
       ∧ cbCall (failSeq (CircuitBreaker.init0 2 60) [0, 1]) 30
           (Except.ok 0 : Except String ℕ) (fun _ => true)
         = (CBCallResult.circuitOpen, failSeq (CircuitBreaker.init0 2 60) [0, 1],
            false)) :=
  ⟨by norm_num, by norm_num, by rfl, by norm_num,
   breaker_opens_at_threshold 2 60 [0, 1] 30 1 (Except.ok 0) (fun _ => true)
     (by norm_num) (by norm_num) (by rfl) (by norm_num)⟩

/-- C5: for a breaker reached from construction by any event sequence —
when it is OPEN and the elapsed time since `last_failure_time` exceeds
`recovery_timeout`, the next eligibility check moves it to HALF_OPEN and
permits that call; a HALF_OPEN call that succeeds resets `failure_count`
to 0 and closes the breaker; a HALF_OPEN call that fails re-opens the
breaker and updates `last_failure_time`. -/
theorem breaker_half_open_transitions (t : ℤ) (r : ℚ) (evs : List CBEvent)
    (cb : CircuitBreaker) (now lft : ℚ)
    (hreach : cb = cbReach t r evs) :
    (cb.state = CBState.OPEN → cb.last_failure_time = Option.some lft →
      cb.recovery_timeout < now - lft →
      canAttempt cb now = (true, { cb with state := CBState.HALF_OPEN }))
    ∧ (cb.state = CBState.HALF_OPEN →
        recordSuccess cb
          = { cb with failure_count := 0, state := CBState.CLOSED })
    ∧ (cb.state = CBState.HALF_OPEN →
        (recordFailure cb now).state = CBState.OPEN
        ∧ (recordFailure cb now).last_failure_time = Option.some now) := by
  refine ⟨?_, ?_, ?_⟩
  · intro hs hl hr'
    simp [canAttempt, hs, hl, hr']
  · intro _
    rfl
  · intro hs
    have hinv : cbInv cb := by
      rw [hreach]
      exact cbReach_inv t r evs
    have hle : cb.failure_threshold ≤ (cb.failure_count : ℤ) :=
      hinv (by rw [hs]; simp)
    refine ⟨?_, (recordFailure_fields cb now).2.2.2⟩
    apply recordFailure_state_of_le
    omega

/-- Witness for C5: threshold 1, a failure at time 0 opens the breaker,
the eligibility check at time 61 (elapsed 61 > 60) moves it to HALF_OPEN;
the resulting breaker exercises the HALF_OPEN success and failure rules. -/
theorem breaker_half_open_transitions_witness :
    (cbHalfOpenSample.state = CBState.OPEN →
      cbHalfOpenSample.last_failure_time = Option.some 0 →
      cbHalfOpenSample.recovery_timeout < 62 - 0 →
      canAttempt cbHalfOpenSample 62
        = (true, { cbHalfOpenSample with state := CBState.HALF_OPEN }))
    ∧ (cbHalfOpenSample.state = CBState.HALF_OPEN →
        recordSuccess cbHalfOpenSample
          = { cbHalfOpenSample with failure_count := 0, state := CBState.CLOSED })
    ∧ (cbHalfOpenSample.state = CBState.HALF_OPEN →
        (recordFailure cbHalfOpenSample 62).state = CBState.OPEN
        ∧ (recordFailure cbHalfOpenSample 62).last_failure_time
            = Option.some 62) :=
  breaker_half_open_transitions 1 60 [CBEvent.failure 0, CBEvent.attemptCheck 61]
    cbHalfOpenSample 62 0
    (by norm_num [cbHalfOpenSample, cbReach, cbStep, CircuitBreaker.init0,
      recordFailure, canAttempt])

/-- C7 counterexample: an `update_session_status(sid, 'failed', 'boom')`
call moves a pending session to the terminal status `'failed'` yet leaves
`completed_at` unset (the code stamps `completed_at` only for
`'completed'`), refuting "completed_at is set iff the status is
terminal". -/
theorem failed_update_leaves_completed_at_unset :
    (updateSessionStatus pendingSampleDB 1 "failed" (Option.some "boom") 5).sessions 1
    = Option.some
        { topic := "t"
          analysis := Option.none
          status := "failed"
          completed_at := Option.none
          error_message := Option.some "boom" } := by
  rfl

/-- C7 amended: `update_session_status` stamps `completed_at` exactly when
the new status is `'completed'` (a `'failed'` update leaves it unchanged —
for a session not previously completed, unset), and overwrites
`error_message` exactly when a truthy (non-`None`, non-empty) message is
supplied; each update overwrites the previous value rather than enforcing
write-once semantics. -/
theorem update_status_completed_at_rule (db : SessionDB) (sid : ℕ)
    (status : String) (err : Option String) (now : ℚ) (rec : SessionRec)
    (h : db.sessions sid = Option.some rec) :
    (updateSessionStatus db sid status err now).sessions sid
      = Option.some (applySessionUpdate rec status err now)
    ∧ (applySessionUpdate rec status err now).status = status
    ∧ (applySessionUpdate rec status err now).completed_at
        = (if status = "completed" then Option.some now else rec.completed_at)
    ∧ (applySessionUpdate rec status err now).error_message
        = (if strOptTruthy err then err else rec.error_message)
    ∧ (rec.completed_at = Option.none →
        ((applySessionUpdate rec status err now).completed_at.isSome
          ↔ status = "completed")) := by
  refine ⟨?_, rfl, rfl, rfl, ?_⟩
  · simp [updateSessionStatus, h]
  · intro hfresh
    simp only [applySessionUpdate]
    by_cases hc : status = "completed"
    · simp [hc]
    · simp [hc, hfresh]

/-- Witness for C7 amended: a concrete `'failed'` update on a pending
session. -/
theorem update_status_completed_at_rule_witness :
    pendingSampleDB.sessions 1 = Option.some pendingSampleRec
    ∧ ((updateSessionStatus pendingSampleDB 1 "failed" (Option.some "oops") 9).sessions 1
        = Option.some (applySessionUpdate pendingSampleRec "failed" (Option.some "oops") 9)
      ∧ (applySessionUpdate pendingSampleRec "failed" (Option.some "oops") 9).status
          = "failed"
      ∧ (applySessionUpdate pendingSampleRec "failed" (Option.some "oops") 9).completed_at
          = (if "failed" = "completed" then Option.some 9
             else pendingSampleRec.completed_at)
      ∧ (applySessionUpdate pendingSampleRec "failed" (Option.some "oops") 9).error_message
          = (if strOptTruthy (Option.some "oops") then Option.some "oops"
             else pendingSampleRec.error_message)
      ∧ (pendingSampleRec.completed_at = Option.none →
          ((applySessionUpdate pendingSampleRec "failed"
              (Option.some "oops") 9).completed_at.isSome
            ↔ "failed" = "completed"))) :=
  ⟨rfl,
   update_status_completed_at_rule pendingSampleDB 1 "failed" (Option.some "oops")
     9 pendingSampleRec rfl⟩

lemma updateStatus_found (db : SessionDB) (sid : ℕ) (status : String)
    (err : Option String) (now : ℚ) (rec : SessionRec)
    (h : db.sessions sid = Option.some rec) :
    (updateSessionStatus db sid status err now).sessions sid
      = Option.some (applySessionUpdate rec status err now) := by
  simp [updateSessionStatus, h]

lemma createSessionRecord_found (db : SessionDB) (topic : String)
    (analysis : Option String) :
    ((createSessionRecord db topic analysis).1).sessions
        ((createSessionRecord db topic analysis).2)
      = Option.some
          { topic := topic, analysis := analysis, status := "pending",
            completed_at := Option.none, error_message := Option.none } := by
  simp [createSessionRecord]

lemma workerExecute_post (topic rr : String)
    (body : Except String (List (String × PyVal))) :
    workerExecute (postInput topic rr) postRequiredKeys body
      = Except.error ("Missing required input keys: " ++ pyReprStrList ["keywords"]) := by
  rfl

lemma workerExecute_voice (topic rr : String)
    (body : Except String (List (String × PyVal))) :
    workerExecute (voiceInput topic rr) voiceRequiredKeys body = body := by
  rfl

lemma workerExecute_keyword (topic rr : String)
    (body : Except String (List (String × PyVal))) :
    workerExecute (keywordInput topic rr) keywordRequiredKeys body = body := by
  rfl

lemma processAfterSession_ok (env : MasterEnv) (db : SessionDB) (sid : ℕ)
    (topic rr : String) (now : ℚ) (hie : env.initErr = Option.none) :
    processAfterSession env db sid topic rr now
      = { db := updateSessionStatus db sid "completed" Option.none now
          launched := ["post_generator", "voice_dialog", "keyword_generator"]
          result := Except.ok (finalDict sid topic rr
            (exceptionToNone (workerExecute (postInput topic rr)
              postRequiredKeys env.postBody))
            (exceptionToNone (workerExecute (voiceInput topic rr)
              voiceRequiredKeys env.voiceBody))
            (exceptionToNone (workerExecute (keywordInput topic rr)
              keywordRequiredKeys env.keywordBody))) } := by
  simp only [processAfterSession, hie]

lemma processAfterSession_spec (env : MasterEnv) (db : SessionDB) (sid : ℕ)
    (topic rr : String) (now : ℚ) (rec0 : SessionRec)
    (hfound : db.sessions sid = Option.some rec0) (hnz : sid ≠ 0) :
    ∃ rec, (processAfterSession env db sid topic rr now).db.sessions sid
        = Option.some rec
      ∧ (rec.status = "completed" ∨ rec.status = "failed")
      ∧ ((∃ v, (processAfterSession env db sid topic rr now).result = Except.ok v)
          ↔ rec.status = "completed")
      ∧ (rec.status = "completed" ↔ env.initErr = Option.none)
      ∧ (∀ e, (processAfterSession env db sid topic rr now).result = Except.error e →
          rec.status = "failed" ∧ (e ≠ "" → rec.error_message = Option.some e)) := by
  cases hie : env.initErr with
  | some e0 =>
    refine ⟨applySessionUpdate rec0 "failed" (Option.some e0) now, ?_, ?_, ?_, ?_, ?_⟩
    · simp only [processAfterSession, hie]
      rw [if_pos hnz]
      exact updateStatus_found db sid "failed" (Option.some e0) now rec0 hfound
    · right
      rfl
    · constructor
      · rintro ⟨v, hv⟩
        simp only [processAfterSession, hie] at hv
        exact absurd hv (by simp)
      · intro hst
        exact absurd hst (by simp [applySessionUpdate])
    · simp [applySessionUpdate, hie]
    · intro e he
      simp only [processAfterSession, hie] at he
      have he' : e0 = e := by
        simpa using he
      subst he'
      refine ⟨rfl, ?_⟩
      intro hne
      simp [applySessionUpdate, strOptTruthy, hne]
  | none =>
    refine ⟨applySessionUpdate rec0 "completed" Option.none now, ?_, ?_, ?_, ?_, ?_⟩
    · simp only [processAfterSession, hie]
      exact updateStatus_found db sid "completed" Option.none now rec0 hfound
    · left
      rfl
    · constructor
      · intro _
        rfl
      · intro _
        simp only [processAfterSession, hie]
        exact ⟨_, rfl⟩
    · simp [applySessionUpdate, hie]
    · intro e he
      simp only [processAfterSession, hie] at he
      exact absurd he (by simp)

/-- C1: once a session has been created or resumed, the persisted final
status is terminal on every exit from `process_topic_with_research`:
`completed` exactly when the run returns normally — which, because the
fan-in converts every worker failure into a `None` placeholder, is
independent of the worker bodies: the code treats no worker task as
essential, so "all essential tasks succeeded" holds vacuously on every
normal path — and `failed` (with the captured error message stored when
it is non-empty) when an exception escapes the fan-out/fan-in steps
before it is re-raised; the row is never left `pending`/`running`. -/
theorem session_terminal_status (env : MasterEnv) (db : SessionDB)
    (topic rr : String) (session_id : Option ℕ) (now : ℚ) (sid : ℕ)
    (hsid : sid = (match session_id with
      | Option.none => db.nextId
      | Option.some s => s))
    (hcreate : session_id = Option.none → env.createErr = Option.none)
    (hnz : sid ≠ 0)
    (hexists : ∀ s, session_id = Option.some s → (db.sessions s).isSome) :
    ∃ rec, (processTopicWithResearch env db topic rr session_id now).db.sessions sid
        = Option.some rec
      ∧ (rec.status = "completed" ∨ rec.status = "failed")
      ∧ ((∃ v, (processTopicWithResearch env db topic rr session_id now).result
            = Except.ok v) ↔ rec.status = "completed")
      ∧ (rec.status = "completed" ↔ env.initErr = Option.none)
      ∧ (∀ e, (processTopicWithResearch env db topic rr session_id now).result
            = Except.error e →
          rec.status = "failed" ∧ (e ≠ "" → rec.error_message = Option.some e)) := by
  cases session_id with
  | none =>
    have hce : env.createErr = Option.none := hcreate rfl
    have hsid' : sid = db.nextId := by simpa using hsid
    subst hsid'
    simp only [processTopicWithResearch, hce]
    exact processAfterSession_spec env (createSessionRecord db topic Option.none).1
      db.nextId topic rr now _ (createSessionRecord_found db topic Option.none) hnz
  | some s =>
    have hsid' : sid = s := by simpa using hsid
    subst hsid'
    obtain ⟨rec0, hrec0⟩ := Option.isSome_iff_exists.mp (hexists sid rfl)
    simp only [processTopicWithResearch]
    exact processAfterSession_spec env db sid topic rr now rec0 hrec0 hnz

/-- Witness for C1: a run in which agent initialisation raises "boom" on a
fresh session — the stored row ends 'failed' with the message. -/
theorem session_terminal_status_witness :
    ∃ rec, (processTopicWithResearch failEnvSample pendingSampleDB "t" "r"
          Option.none 7).db.sessions 2
        = Option.some rec
      ∧ (rec.status = "completed" ∨ rec.status = "failed")
      ∧ ((∃ v, (processTopicWithResearch failEnvSample pendingSampleDB "t" "r"
            Option.none 7).result = Except.ok v) ↔ rec.status = "completed")
      ∧ (rec.status = "completed" ↔ failEnvSample.initErr = Option.none)
      ∧ (∀ e, (processTopicWithResearch failEnvSample pendingSampleDB "t" "r"
            Option.none 7).result = Except.error e →
          rec.status = "failed" ∧ (e ≠ "" → rec.error_message = Option.some e)) :=
  session_terminal_status failEnvSample pendingSampleDB "t" "r" Option.none 7 2
    rfl (fun _ => rfl) (by decide) (fun s h => Option.noConfusion h)

/-- C6: the fan-in collects a terminal outcome for every launched worker:
the aggregate result carries an entry for each task, a failed task appears
as the empty placeholder, and each successful task's entry is read from
its own body alone — universally in the other workers' oracles, so one
task's failure neither cancels nor blocks the others. -/
theorem fan_in_collects_all_outcomes (env : MasterEnv) (db : SessionDB)
    (topic rr : String) (session_id : Option ℕ) (now : ℚ)
    (hcreate : session_id = Option.none → env.createErr = Option.none)
    (hie : env.initErr = Option.none) :
    (processTopicWithResearch env db topic rr session_id now).launched
      = ["post_generator", "voice_dialog", "keyword_generator"]
    ∧ ∃ v, (processTopicWithResearch env db topic rr session_id now).result
        = Except.ok v
      ∧ dictHasKey v "linkedin_post" = true
      ∧ dictHasKey v "voice_dialog" = true
      ∧ dictHasKey v "keywords" = true
      ∧ dictHasKey v "hashtags" = true
      ∧ dictGetD v "linkedin_post" (PyVal.str "") = PyVal.str ""
      ∧ dictGetD v "voice_dialog" (PyVal.str "")
          = (match env.voiceBody with
             | Except.ok d => dictGetD d "dialog" (PyVal.str "")
             | Except.error _ => PyVal.str "")
      ∧ dictGetD v "keywords" (PyVal.list [])
          = (match env.keywordBody with
             | Except.ok d => dictGetD d "keywords" (PyVal.list [])
             | Except.error _ => PyVal.list [])
      ∧ dictGetD v "hashtags" (PyVal.list [])
          = (match env.keywordBody with
             | Except.ok d => dictGetD d "hashtags" (PyVal.list [])
             | Except.error _ => PyVal.list []) := by
  have hred : ∃ db1 sid1, processTopicWithResearch env db topic rr session_id now
      = processAfterSession env db1 sid1 topic rr now := by
    cases session_id with
    | none =>
      exact ⟨(createSessionRecord db topic Option.none).1,
        (createSessionRecord db topic Option.none).2,
        by simp [processTopicWithResearch, hcreate rfl]⟩
    | some s => exact ⟨db, s, rfl⟩
  obtain ⟨db1, sid1, hr⟩ := hred
  rw [hr, processAfterSession_ok env db1 sid1 topic rr now hie]
  refine ⟨rfl, finalDict sid1 topic rr
    (exceptionToNone (workerExecute (postInput topic rr)
      postRequiredKeys env.postBody))
    (exceptionToNone (workerExecute (voiceInput topic rr)
      voiceRequiredKeys env.voiceBody))
    (exceptionToNone (workerExecute (keywordInput topic rr)
      keywordRequiredKeys env.keywordBody)),
    rfl, rfl, rfl, rfl, rfl, rfl, ?_, ?_, ?_⟩
  · rw [workerExecute_voice]
    cases env.voiceBody with
    | ok d => rfl
    | error e => rfl
  · rw [workerExecute_keyword]
    cases env.keywordBody with
    | ok d => rfl
    | error e => rfl
  · rw [workerExecute_keyword]
    cases env.keywordBody with
    | ok d => rfl
    | error e => rfl

/-- Witness for C6: resumed session, voice body raising, keyword body
returning a dict — the aggregate keeps entries for all three tasks. -/
theorem fan_in_collects_all_outcomes_witness :
    (processTopicWithResearch mixedEnvSample pendingSampleDB "t" "r"
        (Option.some 1) 3).launched
      = ["post_generator", "voice_dialog", "keyword_generator"]
    ∧ ∃ v, (processTopicWithResearch mixedEnvSample pendingSampleDB "t" "r"
        (Option.some 1) 3).result = Except.ok v
      ∧ dictHasKey v "linkedin_post" = true
      ∧ dictHasKey v "voice_dialog" = true
      ∧ dictHasKey v "keywords" = true
      ∧ dictHasKey v "hashtags" = true
      ∧ dictGetD v "linkedin_post" (PyVal.str "") = PyVal.str ""
      ∧ dictGetD v "voice_dialog" (PyVal.str "")
          = (match mixedEnvSample.voiceBody with
             | Except.ok d => dictGetD d "dialog" (PyVal.str "")
             | Except.error _ => PyVal.str "")
      ∧ dictGetD v "keywords" (PyVal.list [])
          = (match mixedEnvSample.keywordBody with
             | Except.ok d => dictGetD d "keywords" (PyVal.list [])
             | Except.error _ => PyVal.list [])
      ∧ dictGetD v "hashtags" (PyVal.list [])
          = (match mixedEnvSample.keywordBody with
             | Except.ok d => dictGetD d "hashtags" (PyVal.list [])
             | Except.error _ => PyVal.list []) :=
  fan_in_collects_all_outcomes mixedEnvSample pendingSampleDB "t" "r"
    (Option.some 1) 3 (fun h => Option.noConfusion h) rfl

/-- C8 counterexample: resuming session 1 of `completedSampleDB`, whose
stored status is already 'completed', re-launches the three workers and
rewrites the stored row (`completed_at` is re-stamped from 100 to the new
run's clock 200) — the resume is not a no-op on the persisted record. -/
theorem resume_completed_not_noop :
    (processTopicWithResearch mixedEnvSample completedSampleDB "t" "r"
        (Option.some 1) 200).launched ≠ []
    ∧ (processTopicWithResearch mixedEnvSample completedSampleDB "t" "r"
        (Option.some 1) 200).db.sessions 1 ≠ Option.some completedSampleRec := by
  have hr : processTopicWithResearch mixedEnvSample completedSampleDB "t" "r"
      (Option.some 1) 200 = processAfterSession mixedEnvSample completedSampleDB
        1 "t" "r" 200 := rfl
  constructor
  · intro h
    rw [hr, processAfterSession_ok mixedEnvSample completedSampleDB 1 "t" "r"
      200 rfl] at h
    simp at h
  · intro h
    rw [hr, processAfterSession_ok mixedEnvSample completedSampleDB 1 "t" "r"
      200 rfl] at h
    rw [updateStatus_found completedSampleDB 1 "completed" Option.none 200
      completedSampleRec rfl] at h
    have h2 : applySessionUpdate completedSampleRec "completed" Option.none 200
        = completedSampleRec := by
      exact Option.some_injective _ h
    have h3 := congrArg SessionRec.completed_at h2
    simp [applySessionUpdate, completedSampleRec] at h3

/-- C8 amended: resuming an already-completed session re-runs the full
pipeline — all three worker tasks are launched again and the row is
re-persisted with status 'completed' and a freshly stamped completed_at;
only the status *value* is preserved, not the record. -/
theorem resume_completed_reruns_pipeline (env : MasterEnv) (db : SessionDB)
    (s : ℕ) (rec : SessionRec) (topic rr : String) (now : ℚ)
    (hfound : db.sessions s = Option.some rec)
    (_hstatus : rec.status = "completed")
    (hie : env.initErr = Option.none) :
    (processTopicWithResearch env db topic rr (Option.some s) now).launched
      = ["post_generator", "voice_dialog", "keyword_generator"]
    ∧ (processTopicWithResearch env db topic rr (Option.some s) now).db.sessions s
      = Option.some
          { rec with status := "completed", completed_at := Option.some now } := by
  rw [show processTopicWithResearch env db topic rr (Option.some s) now
      = processAfterSession env db s topic rr now from rfl,
    processAfterSession_ok env db s topic rr now hie]
  refine ⟨rfl, ?_⟩
  rw [updateStatus_found db s "completed" Option.none now rec hfound]
  congr 1

/-- Witness for C8 amended: the concrete resumed completed session. -/
theorem resume_completed_reruns_pipeline_witness :
    (processTopicWithResearch mixedEnvSample completedSampleDB "t" "r"
        (Option.some 1) 200).launched
      = ["post_generator", "voice_dialog", "keyword_generator"]
    ∧ (processTopicWithResearch mixedEnvSample completedSampleDB "t" "r"
        (Option.some 1) 200).db.sessions 1
      = Option.some
          { completedSampleRec with
            status := "completed", completed_at := Option.some 200 } :=
  resume_completed_reruns_pipeline mixedEnvSample completedSampleDB 1
    completedSampleRec "t" "r" 200 rfl rfl rfl

/-- C10: the input dict handed to the post-generator worker has the keys
'topic', 'research' and 'research_response' but no 'keywords' key, while
`PostGenerator.execute` requires `["topic", "research", "keywords"]`; the
post-generation task therefore always raises the missing-input
`ValueError`, and the aggregate result's 'linkedin_post' field is always
the empty string. -/
theorem post_generation_always_fails (env : MasterEnv) (db : SessionDB)
    (topic rr : String) (session_id : Option ℕ) (now : ℚ)
    (hcreate : session_id = Option.none → env.createErr = Option.none)
    (hie : env.initErr = Option.none) :
    dictHasKey (postInput topic rr) "topic" = true
    ∧ dictHasKey (postInput topic rr) "research" = true
    ∧ dictHasKey (postInput topic rr) "research_response" = true
    ∧ dictHasKey (postInput topic rr) "keywords" = false
    ∧ postRequiredKeys = ["topic", "research", "keywords"]
    ∧ workerExecute (postInput topic rr) postRequiredKeys env.postBody
        = Except.error ("Missing required input keys: " ++ pyReprStrList ["keywords"])
    ∧ ∃ v, (processTopicWithResearch env db topic rr session_id now).result
          = Except.ok v
        ∧ dictGetD v "linkedin_post" (PyVal.str "") = PyVal.str "" := by
  refine ⟨rfl, rfl, rfl, rfl, rfl, workerExecute_post topic rr env.postBody, ?_⟩
  have hred : ∃ db1 sid1, processTopicWithResearch env db topic rr session_id now
      = processAfterSession env db1 sid1 topic rr now := by
    cases session_id with
    | none =>
      exact ⟨(createSessionRecord db topic Option.none).1,
        (createSessionRecord db topic Option.none).2,
        by simp [processTopicWithResearch, hcreate rfl]⟩
    | some s => exact ⟨db, s, rfl⟩
  obtain ⟨db1, sid1, hr⟩ := hred
  rw [hr, processAfterSession_ok env db1 sid1 topic rr now hie]
  exact ⟨_, rfl, rfl⟩

/-- Witness for C10: a concrete run whose post body would even have
succeeded — the linkedin_post field is still empty. -/
theorem post_generation_always_fails_witness :
    dictHasKey (postInput "t" "r") "topic" = true
    ∧ dictHasKey (postInput "t" "r") "research" = true
    ∧ dictHasKey (postInput "t" "r") "research_response" = true
    ∧ dictHasKey (postInput "t" "r") "keywords" = false
    ∧ postRequiredKeys = ["topic", "research", "keywords"]
    ∧ workerExecute (postInput "t" "r") postRequiredKeys mixedEnvSample.postBody
        = Except.error ("Missing required input keys: " ++ pyReprStrList ["keywords"])
    ∧ ∃ v, (processTopicWithResearch mixedEnvSample pendingSampleDB "t" "r"
          (Option.some 1) 3).result = Except.ok v
        ∧ dictGetD v "linkedin_post" (PyVal.str "") = PyVal.str "" :=
  post_generation_always_fails mixedEnvSample pendingSampleDB "t" "r"
    (Option.some 1) 3 (fun h => Option.noConfusion h) rfl
